import Mathlib

/-!
Verification development for the glc capture-and-transform pipeline core:
the GL capture producer (`src/glc/capture/gl_capture.c`), the software scaler
(`src/core/scale.c`), the stream state tracker (`src/glc/core/tracker.c`) and
the info sink (`src/glc/core/info.c`).

Each C function referenced by a claim is embedded as a pure Lean definition:
linked lists become `List`s, in-place mutation becomes functional update,
`u64` arithmetic is `Nat` reduced mod `2^64` where the C can wrap, and the
bit-flag words of the glcs headers become structures of `Bool` fields (one
field per bit; the C only ever tests, sets and clears individual bits).
Floating-point values that the code merely stores and compares are carried as
exact rationals.
-/

namespace Glcs

/-- Wire value of the BGR video format tag (`GLC_VIDEO_BGR`). -/
def GLC_VIDEO_BGR : Nat := 1

/-- Wire value of the BGRA video format tag (`GLC_VIDEO_BGRA`). -/
def GLC_VIDEO_BGRA : Nat := 2

/-- Wire value of the YCbCr 4:2:0 video format tag (`GLC_VIDEO_YCBCR_420JPEG`). -/
def GLC_VIDEO_YCBCR_420JPEG : Nat := 3

/-- The per-stream flag word `glc_flags_t` carried by video format messages and
per-stream records, one `Bool` per bit used by the sources
(`GLC_VIDEO_DWORD_ALIGNED`, `GLC_VIDEO_CAPTURING`, `GLC_VIDEO_NEED_COLOR_UPDATE`). -/
structure glc_video_flags where
  dword_aligned : Bool := false
  capturing : Bool := false
  need_color_update : Bool := false
deriving DecidableEq, Repr

/-- `glc_video_format_message_t`: stream id, flags, format tag, width, height. -/
structure glc_video_format_message_t where
  id : Nat := 0
  flags : glc_video_flags := {}
  format : Nat := 0
  width : Nat := 0
  height : Nat := 0
deriving DecidableEq, Repr

/-- `glc_video_frame_header_t`: stream id and capture timestamp (ns). -/
structure glc_video_frame_header_t where
  id : Nat := 0
  time : Nat := 0
deriving DecidableEq, Repr

/-- `glc_color_message_t`: color correction payload; the float fields are
carried as exact rationals (the tracker and info only store and print them). -/
structure glc_color_message_t where
  id : Nat := 0
  brightness : Rat := 0
  contrast : Rat := 0
  red : Rat := 0
  green : Rat := 0
  blue : Rat := 0
deriving DecidableEq, Repr

/-- `glc_audio_format_message_t`. -/
structure glc_audio_format_message_t where
  id : Nat := 0
  flags : Nat := 0
  rate : Nat := 0
  channels : Nat := 0
  format : Nat := 0
deriving DecidableEq, Repr

/-- A tagged message of the glcs message bus, dispatch key `header->type`. -/
inductive glc_message_t where
  | video_format (m : glc_video_format_message_t)
  | video_frame (m : glc_video_frame_header_t)
  | audio_format (m : glc_audio_format_message_t)
  | color (m : glc_color_message_t)
  | close
deriving DecidableEq, Repr

/-- Functional update of the `i`-th element of a list, the pure counterpart of
writing through the pointer returned by the C lookup helpers. -/
def listModify (f : α → α) : Nat → List α → List α
  | _, [] => []
  | 0, a :: l => f a :: l
  | n + 1, a :: l => a :: listModify f n l

/-! ## Stream state tracker (`src/glc/core/tracker.c`) -/

/-- `TRACKER_VIDEO_FORMAT` flag bit. -/
def TRACKER_VIDEO_FORMAT : Nat := 0x01

/-- `TRACKER_VIDEO_COLOR` flag bit. -/
def TRACKER_VIDEO_COLOR : Nat := 0x02

/-- `TRACKER_AUDIO_FORMAT` flag bit. -/
def TRACKER_AUDIO_FORMAT : Nat := 0x01

/-- `struct tracker_video_s` (sans the intrusive `next` pointer). -/
structure tracker_video_s where
  id : Nat
  flags : Nat
  format : glc_video_format_message_t
  color : glc_color_message_t
deriving DecidableEq, Repr

/-- The record produced by `calloc` in `tracker_get_video_stream`: all fields
zero. -/
def tracker_video_zero : tracker_video_s :=
  { id := 0, flags := 0, format := {}, color := {} }

/-- `struct tracker_audio_s`. -/
structure tracker_audio_s where
  id : Nat
  flags : Nat
  format : glc_audio_format_message_t
deriving DecidableEq, Repr

/-- The `calloc`-zeroed audio record. -/
def tracker_audio_zero : tracker_audio_s := { id := 0, flags := 0, format := {} }

/-- `struct tracker_s`: the two intrusive lists, head = most recently prepended. -/
structure tracker_s where
  video_streams : List tracker_video_s
  audio_streams : List tracker_audio_s
deriving DecidableEq, Repr

/-- `tracker_init`: `calloc`-zeroed tracker. -/
def tracker_empty : tracker_s := { video_streams := [], audio_streams := [] }

/-- `tracker_get_video_stream` (tracker.c:98): walk the list comparing
`video->id == id`; on miss, prepend a `calloc`-zeroed node.  The C never
assigns the `id` field of the new node, so it stays 0; the embedding keeps
that behaviour.  Returns the new list and the index of the found/created node. -/
def tracker_get_video_stream (streams : List tracker_video_s) (i : Nat) :
    List tracker_video_s × Nat :=
  match streams.findIdx? (fun v => v.id == i) with
  | some j => (streams, j)
  | none => (tracker_video_zero :: streams, 0)

/-- `tracker_get_audio_stream` (tracker.c:118), same shape (and same missing
`id` assignment) as the video lookup. -/
def tracker_get_audio_stream (streams : List tracker_audio_s) (i : Nat) :
    List tracker_audio_s × Nat :=
  match streams.findIdx? (fun a => a.id == i) with
  | some j => (streams, j)
  | none => (tracker_audio_zero :: streams, 0)

/-- `tracker_submit` (tracker.c:139): cache VIDEO_FORMAT / AUDIO_FORMAT /
COLOR messages in the per-stream records, ignore every other type. -/
def tracker_submit (t : tracker_s) (msg : glc_message_t) : tracker_s :=
  match msg with
  | .video_format m =>
      let (l, j) := tracker_get_video_stream t.video_streams m.id
      { t with video_streams :=
          listModify (fun v => { v with
            format := m
            flags := v.flags ||| TRACKER_VIDEO_FORMAT }) j l }
  | .audio_format m =>
      let (l, j) := tracker_get_audio_stream t.audio_streams m.id
      { t with audio_streams :=
          listModify (fun a => { a with
            format := m
            flags := a.flags ||| TRACKER_AUDIO_FORMAT }) j l }
  | .color m =>
      let (l, j) := tracker_get_video_stream t.video_streams m.id
      { t with video_streams :=
          listModify (fun v => { v with
            color := m
            flags := v.flags ||| TRACKER_VIDEO_COLOR }) j l }
  | _ => t

/-- One replayed callback invocation of `tracker_iterate_state`. -/
inductive tracker_replay_item where
  | video_format (m : glc_video_format_message_t)
  | color (m : glc_color_message_t)
  | audio_format (m : glc_audio_format_message_t)
deriving DecidableEq, Repr

/-- `tracker_iterate_state` (tracker.c:162) with a callback that always
returns 0: the full sequence of replayed messages, per video stream
VIDEO_FORMAT then COLOR, then the audio streams. -/
def tracker_iterate_state (t : tracker_s) : List tracker_replay_item :=
  (t.video_streams.map (fun v =>
    (if v.flags &&& TRACKER_VIDEO_FORMAT ≠ 0 then
      [tracker_replay_item.video_format v.format] else []) ++
    (if v.flags &&& TRACKER_VIDEO_COLOR ≠ 0 then
      [tracker_replay_item.color v.color] else []))).flatten ++
  (t.audio_streams.map (fun a =>
    if a.flags &&& TRACKER_AUDIO_FORMAT ≠ 0 then
      [tracker_replay_item.audio_format a.format] else [])).flatten

/-- Does a replay item carry a VIDEO_FORMAT message for stream `i`? -/
def tracker_is_vf_of (i : Nat) : tracker_replay_item → Bool
  | .video_format m => m.id == i
  | _ => false

/-- First VIDEO_FORMAT submission of the C1 failing input (stream 1, 100x50). -/
def tracker_c1_msg1 : glc_video_format_message_t :=
  { id := 1, flags := {}, format := GLC_VIDEO_BGRA, width := 100, height := 50 }

/-- Second VIDEO_FORMAT submission of the C1 failing input (stream 1, 200x100). -/
def tracker_c1_msg2 : glc_video_format_message_t :=
  { id := 1, flags := {}, format := GLC_VIDEO_BGRA, width := 200, height := 100 }

/-- Tracker state after the two C1 submissions. -/
def tracker_c1_state : tracker_s :=
  tracker_submit (tracker_submit tracker_empty (.video_format tracker_c1_msg1))
    (.video_format tracker_c1_msg2)

/-- C1: The tracker caches at most one VIDEO_FORMAT record per stream id,
holding the most recently submitted message: after two VIDEO_FORMAT
submissions with the same stream id, iterate replays exactly one VIDEO_FORMAT
callback for that stream, carrying the later message.  This is FALSE on the
code: `tracker_get_video_stream` never assigns the `id` field of a freshly
`calloc`-ed node (it stays 0), so the lookup for stream 1 misses every time
and each submission creates a fresh record.  After submitting two
VIDEO_FORMAT messages for stream 1, iterate replays TWO VIDEO_FORMAT
callbacks for stream 1 (the later message first, then the earlier one)
instead of exactly one. -/
theorem tracker_c1_duplicate_video_format_replay :
    tracker_iterate_state tracker_c1_state =
      [.video_format tracker_c1_msg2, .video_format tracker_c1_msg1] ∧
    ((tracker_iterate_state tracker_c1_state).filter (tracker_is_vf_of 1)).length = 2 := by
  constructor <;> rfl

/-! ## Info sink (`src/glc/core/info.c`) -/

/-- `INFO_FPS` verbosity threshold. -/
def INFO_FPS : Nat := 3

/-- 64-bit wraparound subtraction `a - b` on `glc_utime_t` values. -/
def u64sub (a b : Nat) : Nat :=
  (a % 2 ^ 64 + (2 ^ 64 - b % 2 ^ 64)) % 2 ^ 64

/-- `struct info_video_stream_s` (sans the intrusive `next` pointer). -/
structure info_video_stream_s where
  id : Nat := 0
  flags : glc_video_flags := {}
  format : Nat := 0
  w : Nat := 0
  h : Nat := 0
  pictures : Nat := 0
  bytes : Nat := 0
  fps : Nat := 0
  last_fps_time : Nat := 0
  fps_time : Nat := 0
deriving DecidableEq, Repr

/-- `struct info_audio_stream_s`. -/
structure info_audio_stream_s where
  id : Nat := 0
  packets : Nat := 0
  bytes : Nat := 0
deriving DecidableEq, Repr

/-- `struct info_s` state (stream handle and thread bookkeeping omitted). -/
structure info_s where
  time : Nat := 0
  level : Nat := 1
  video_list : List info_video_stream_s := []
  audio_list : List info_audio_stream_s := []
deriving DecidableEq, Repr

/-- `info_get_video_stream` (info.c:242): find by id, else prepend a zeroed
record whose `id` IS assigned (unlike the tracker's lookup). -/
def info_get_video_stream (l : List info_video_stream_s) (i : Nat) :
    List info_video_stream_s × Nat :=
  match l.findIdx? (fun v => v.id == i) with
  | some j => (l, j)
  | none => ({ (({} : info_video_stream_s)) with id := i } :: l, 0)

/-- `info_get_audio_stream` (info.c:266). -/
def info_get_audio_stream (l : List info_audio_stream_s) (i : Nat) :
    List info_audio_stream_s × Nat :=
  match l.findIdx? (fun a => a.id == i) with
  | some j => (l, j)
  | none => ({ (({} : info_audio_stream_s)) with id := i } :: l, 0)

/-- `video_format_info` (info.c:297): record the stream's geometry, flags and
format from the VIDEO_FORMAT message (the printing is not modelled). -/
def video_format_info (s : info_s) (m : glc_video_format_message_t) : info_s :=
  let (l, j) := info_get_video_stream s.video_list m.id
  { s with video_list :=
      listModify (fun v => { v with
        w := m.width
        h := m.height
        flags := m.flags
        format := m.format }) j l }

/-- Byte increment applied by `video_frame_info` (info.c:358-367) for one
frame: `w*h*bpp`, plus `h*(8 - (w*bpp) % 8)` whenever the stream is
DWORD_ALIGNED — note the C adds this even when `w*bpp` is already a multiple
of 8 (in which case it adds `h*8`). -/
def info_frame_bytes (v : info_video_stream_s) : Nat :=
  if v.format = GLC_VIDEO_BGR then
    v.w * v.h * 3 +
      (if v.flags.dword_aligned then v.h * (8 - (v.w * 3) % 8) else 0)
  else if v.format = GLC_VIDEO_BGRA then
    v.w * v.h * 4 +
      (if v.flags.dword_aligned then v.h * (8 - (v.w * 4) % 8) else 0)
  else if v.format = GLC_VIDEO_YCBCR_420JPEG then
    v.w * v.h * 3 / 2
  else 0

/-- `video_frame_info` (info.c:336): advance the clock, bump the per-stream
frame and byte tallies, and run the one-second fps estimator window. -/
def video_frame_info (s : info_s) (pic : glc_video_frame_header_t) : info_s :=
  let s := { s with time := pic.time }
  let (l, j) := info_get_video_stream s.video_list pic.id
  { s with video_list :=
      listModify (fun v =>
        let v := { v with
          pictures := v.pictures + 1
          fps := v.fps + 1 }
        let v := { v with bytes := v.bytes + info_frame_bytes v }
        if s.level ≥ INFO_FPS ∧ u64sub pic.time v.fps_time ≥ 1000000000 then
          { v with
            last_fps_time := pic.time
            fps_time := v.fps_time + 1000000000
            fps := 0 }
        else v) j l }

/-- `audio_data_info` (info.c:411). -/
def audio_data_info (s : info_s) (id time size : Nat) : info_s :=
  let s := { s with time := time }
  let (l, j) := info_get_audio_stream s.audio_list id
  { s with audio_list :=
      listModify (fun a => { a with
        packets := a.packets + 1
        bytes := a.bytes + size }) j l }

/-- `info_read_callback` (info.c:216): dispatch on the message type; COLOR,
AUDIO_FORMAT, CLOSE and unknown messages only print. -/
def info_read_callback (s : info_s) : glc_message_t → info_s
  | .video_format m => video_format_info s m
  | .video_frame m => video_frame_info s m
  | _ => s

/-- Run the info sink over a message sequence from the freshly initialized
state (`info_init`: level 1, empty lists). -/
def info_run (msgs : List glc_message_t) : info_s :=
  msgs.foldl info_read_callback {}

/-- Row stride computed by `gl_capture_calc_geometry`
(gl_capture.c:546-549): `cw*bpp`, padded up to the next multiple of
`pack_alignment` only when not already a multiple. -/
def gl_capture_row (cw bpp pack_alignment : Nat) : Nat :=
  let row := cw * bpp
  if row % pack_alignment ≠ 0 then row + (pack_alignment - row % pack_alignment)
  else row

/-- The per-frame payload size the claim describes: `h` rows of `w*bpp`
bytes, each row padded up to a multiple of 8 only when the stream is
DWORD_ALIGNED and `w*bpp` is not already a multiple of 8
(`w*h*3/2` for YCbCr-420JPEG). -/
def claim_frame_payload (format : Nat) (flags : glc_video_flags) (w h : Nat) : Nat :=
  if format = GLC_VIDEO_BGR then
    h * (if flags.dword_aligned then gl_capture_row w 3 8 else w * 3)
  else if format = GLC_VIDEO_BGRA then
    h * (if flags.dword_aligned then gl_capture_row w 4 8 else w * 4)
  else if format = GLC_VIDEO_YCBCR_420JPEG then w * h * 3 / 2
  else 0

/-- The C2 failing input: a BGRA, DWORD_ALIGNED stream of width 2, height 1
(so `w*bpp = 8` is already a multiple of 8), followed by one frame. -/
def info_c2_format : glc_video_format_message_t :=
  { id := 1
    flags := { dword_aligned := true }
    format := GLC_VIDEO_BGRA
    width := 2
    height := 1 }

/-- Messages of the C2 failing input. -/
def info_c2_msgs : List glc_message_t :=
  [.video_format info_c2_format, .video_frame { id := 1, time := 5000 }]

/-- C2: Info's accumulated byte tally should equal the exact sum of actual
per-frame payload sizes (row padded to a multiple of 8 only when
DWORD_ALIGNED and `w*bpp` not already a multiple of 8).  This is FALSE on the
code: `video_frame_info` adds `h*(8 - (w*bpp) % 8)` whenever the stream is
DWORD_ALIGNED, even when `w*bpp` is already a multiple of 8, in which case it
adds `h*8` phantom bytes per frame.  For a 2x1 BGRA DWORD_ALIGNED stream the
actual payload (per `gl_capture_calc_geometry`: row `= 2*4 = 8`, no padding
needed) is 8 bytes, but info tallies 16. -/
theorem info_c2_byte_tally_overcounts_aligned_rows :
    ((info_run info_c2_msgs).video_list.map (fun v => (v.id, v.bytes))) = [(1, 16)] ∧
    claim_frame_payload GLC_VIDEO_BGRA { dword_aligned := true } 2 1 = 8 ∧
    (16 : Nat) ≠ 8 := by
  refine ⟨rfl, rfl, by decide⟩

/-! ## Software scaler (`src/core/scale.c`)

The scaler's float arithmetic (the ratio `d`, the accumulators `ofx`/`ofy`
and the tap weights) is carried as exact rationals.  Every concrete instance
evaluated below uses values (integers and halves) on which the C float
operations are themselves exact, so the rational model coincides with the
code there. -/

/-- The `glc_flags_t` word of the old-style scaler contexts, one `Bool` per
bit used by scale.c (`GLC_CTX_BGR`, `GLC_CTX_BGRA`, `GLC_CTX_DWORD_ALIGNED`). -/
structure glc_ctx_flags where
  bgr : Bool := false
  bgra : Bool := false
  dword_aligned : Bool := false
deriving DecidableEq, Repr

/-- `glc_ctx_message_t`: flags and source geometry. -/
structure glc_ctx_message_t where
  flags : glc_ctx_flags
  w : Nat
  h : Nat
deriving DecidableEq, Repr

/-- `struct scale_ctx_s` (sans the rwlock, the intrusive `next` pointer and
the `pos`/`factor` arrays, which are passed separately below). -/
structure scale_ctx_s where
  flags : glc_ctx_flags := {}
  w : Nat := 0
  h : Nat := 0
  sw : Nat := 0
  sh : Nat := 0
  bpp : Nat := 0
  row : Nat := 0
  scale : Rat := 0
  process : Bool := false
deriving DecidableEq, Repr

/-- C cast of a nonnegative real value to an unsigned integer: truncation
toward zero. -/
def ratTrunc (q : Rat) : Nat := q.num.toNat / q.den

/-- Tail of `scale_ctx_msg` (scale.c:276-294) shared by all non-skip
branches: set `process`, `scale`, the truncated target geometry, the padded
input row stride, and rewrite the forwarded message's geometry. -/
def scale_ctx_common (glcScale : Rat) (ctx : scale_ctx_s) (msg : glc_ctx_message_t) :
    scale_ctx_s × glc_ctx_message_t :=
  let ctx := { ctx with
    process := true
    scale := glcScale
    sw := ratTrunc (glcScale * ctx.w)
    sh := ratTrunc (glcScale * ctx.h)
    row := ctx.w * ctx.bpp }
  let (ctx, msg) :=
    if msg.flags.dword_aligned then
      ({ ctx with
          row := if ctx.row % 8 ≠ 0 then ctx.row + (8 - ctx.row % 8) else ctx.row },
       { msg with flags := { msg.flags with dword_aligned := false } })
    else (ctx, msg)
  (ctx, { msg with
    w := ctx.sw
    h := ctx.sh })

/-- `scale_ctx_msg` (scale.c:248): record the new source geometry, pick the
processing mode (BGRA conversion / skip at `scale = 1` with BGR / plain BGR
scaling), and rewrite the forwarded message. -/
def scale_ctx_msg (glcScale : Rat) (ctx0 : scale_ctx_s) (msg : glc_ctx_message_t) :
    scale_ctx_s × glc_ctx_message_t :=
  let ctx := { ctx0 with
    flags := msg.flags
    w := msg.w
    h := msg.h }
  if msg.flags.bgra then
    scale_ctx_common glcScale { ctx with bpp := 4 }
      { msg with flags := { msg.flags with bgr := true } }
  else if glcScale = 1 ∧ ctx.flags.bgr then
    ({ ctx with
        sw := ctx.w
        sh := ctx.h
        scale := 1 }, msg)
  else if msg.flags.bgr then
    scale_ctx_common glcScale { ctx with bpp := 3 } msg
  else
    scale_ctx_common glcScale ctx msg

/-- Does `scale_ctx_msg` generate scale maps for this context?  (scale.c:291:
not for the 0.5 and 1.0 fast paths.) -/
def scale_gen_maps (ctx : scale_ctx_s) : Prop :=
  ¬(ctx.scale = 1 / 2 ∨ ctx.scale = 1)

instance (ctx : scale_ctx_s) : Decidable (scale_gen_maps ctx) := by
  unfold scale_gen_maps; infer_instance

/-- One test of the shrink loop (scale.c:310-314): with `d = (w - r)/sw`,
stop when neither `d*(sh-1)+1 > h` nor `d*(sw-1)+1 > w`. -/
def scale_shrink_ok (w h sw sh r : Nat) : Prop :=
  let d : Rat := ((w - r : Nat) : Rat) / (sw : Rat)
  ¬(d * ((sh - 1 : Nat) : Rat) + 1 > (h : Rat)) ∧
    ¬(d * ((sw - 1 : Nat) : Rat) + 1 > (w : Rat))

instance (w h sw sh r : Nat) : Decidable (scale_shrink_ok w h sw sh r) := by
  unfold scale_shrink_ok; infer_instance

/-- The do-while shrink search: the first `r` (from 0) passing
`scale_shrink_ok`; fuelled, `w + 1` steps suffice whenever the geometry is
nonempty (at `r = w`, `d = 0` passes). -/
def scale_find_shrink (w h sw sh : Nat) : Nat → Nat → Nat
  | 0, r => r
  | fuel + 1, r =>
      if scale_shrink_ok w h sw sh r then r
      else scale_find_shrink w h sw sh fuel (r + 1)

/-- The sampling ratio `d = (w - r)/sw` (scale.c:311). -/
def scale_d (w sw r : Nat) : Rat := ((w - r : Nat) : Rat) / (sw : Rat)

/-- The `ofx`/`ofy` accumulator of the map-generation loop: starts at 0 and
adds `d` once per step (exact here; repeated rational addition equals
multiplication). -/
def scale_accum (d : Rat) : Nat → Rat
  | 0 => 0
  | k + 1 => scale_accum d k + d

/-- `pos[4*(y*sw + x) + tap]` as written by the generation loop
(scale.c:321-328): the byte offset of tap `tap` of target pixel `(x, y)`. -/
def scale_pos (d : Rat) (bpp row x y tap : Nat) : Nat :=
  let ix := ratTrunc (scale_accum d x)
  let iy := ratTrunc (scale_accum d y)
  match tap with
  | 0 => (ix + 0) * bpp + (iy + 0) * row
  | 1 => (ix + 1) * bpp + (iy + 0) * row
  | 2 => (ix + 0) * bpp + (iy + 1) * row
  | _ => (ix + 1) * bpp + (iy + 1) * row

/-- `factor[4*(y*sw + x) + tap]` (scale.c:330-338). -/
def scale_factor (d : Rat) (x y tap : Nat) : Rat :=
  let fx1 : Rat := (x : Rat) * d - (ratTrunc (scale_accum d x) : Rat)
  let fy1 : Rat := (y : Rat) * d - (ratTrunc (scale_accum d y) : Rat)
  let fx0 : Rat := 1 - fx1
  let fy0 : Rat := 1 - fy1
  match tap with
  | 0 => fx0 * fy0
  | 1 => fx1 * fy0
  | 2 => fx0 * fy1
  | _ => fx1 * fy1

/-- BGRA→BGR branch of `scale_pic_msg` (scale.c:176-192): one output byte.
The store into the `unsigned char` output array reduces mod 256. -/
def scale_copy_byte (ctx : scale_ctx_s) (src : Nat → Nat) (xi yi c : Nat) : Nat :=
  src (xi * ctx.bpp + yi * ctx.row + c) % 256

/-- The output array of the BGRA→BGR branch in row-major order: the loop
writes bytes `to[3*(yi*sw + xi) + c]`, which this list enumerates in order. -/
def scale_pic_copy (ctx : scale_ctx_s) (src : Nat → Nat) : List Nat :=
  (List.range ctx.sh).flatMap (fun yi =>
    (List.range ctx.sw).flatMap (fun xi =>
      [scale_copy_byte ctx src xi yi 0, scale_copy_byte ctx src xi yi 1,
       scale_copy_byte ctx src xi yi 2]))

/-- Half-scale branch of `scale_pic_msg` (scale.c:194-223): one output byte,
the `>> 2` average of the 2x2 source block (`int` arithmetic, then stored
into `unsigned char`). -/
def scale_half_byte (ctx : scale_ctx_s) (src : Nat → Nat) (xi yi c : Nat) : Nat :=
  let op1 := 2 * ctx.bpp * xi + 2 * yi * ctx.row
  let op2 := 2 * ctx.bpp * xi + ctx.bpp + 2 * yi * ctx.row
  let op3 := 2 * ctx.bpp * xi + (2 * yi + 1) * ctx.row
  let op4 := 2 * ctx.bpp * xi + ctx.bpp + (2 * yi + 1) * ctx.row
  ((src (op1 + c) + src (op2 + c) + src (op3 + c) + src (op4 + c)) >>> 2) % 256

/-- The output array of the half-scale branch in row-major order. -/
def scale_pic_half (ctx : scale_ctx_s) (src : Nat → Nat) : List Nat :=
  (List.range ctx.sh).flatMap (fun yi =>
    (List.range ctx.sw).flatMap (fun xi =>
      [scale_half_byte ctx src xi yi 0, scale_half_byte ctx src xi yi 1,
       scale_half_byte ctx src xi yi 2]))

/-- Bilinear branch of `scale_pic_msg` (scale.c:225-243): one output byte,
the 4-tap weighted sum truncated by the float-to-`unsigned char` store. -/
def scale_bilinear_byte (ctx : scale_ctx_s) (pos : Nat → Nat) (factor : Nat → Rat)
    (src : Nat → Nat) (xi yi c : Nat) : Nat :=
  let sp := (xi + yi * ctx.sw) * 4
  ratTrunc ((src (pos sp + c) : Rat) * factor sp +
    (src (pos (sp + 1) + c) : Rat) * factor (sp + 1) +
    (src (pos (sp + 2) + c) : Rat) * factor (sp + 2) +
    (src (pos (sp + 3) + c) : Rat) * factor (sp + 3)) % 256

/-- The output array of the bilinear branch in row-major order. -/
def scale_pic_bilinear (ctx : scale_ctx_s) (pos : Nat → Nat) (factor : Nat → Rat)
    (src : Nat → Nat) : List Nat :=
  (List.range ctx.sh).flatMap (fun yi =>
    (List.range ctx.sw).flatMap (fun xi =>
      [scale_bilinear_byte ctx pos factor src xi yi 0,
       scale_bilinear_byte ctx pos factor src xi yi 1,
       scale_bilinear_byte ctx pos factor src xi yi 2]))

/-- `scale_pic_msg` (scale.c:169): dispatch on the context's mode — BGRA drop
at scale 1, the half-scale box filter, else bilinear with the context's
precomputed `pos`/`factor` arrays (passed here as functions). -/
def scale_pic_msg (ctx : scale_ctx_s) (pos : Nat → Nat) (factor : Nat → Rat)
    (src : Nat → Nat) : List Nat :=
  if ctx.scale = 1 ∧ ctx.flags.bgra then scale_pic_copy ctx src
  else if ctx.scale = 1 / 2 then scale_pic_half ctx src
  else scale_pic_bilinear ctx pos factor src

/-- `flatMap` over an initial segment only depends on the values below `n`. -/
theorem range_flatMap_congr {α : Type} {f g : Nat → List α} {n : Nat}
    (h : ∀ i, i < n → f i = g i) :
    (List.range n).flatMap f = (List.range n).flatMap g := by
  induction n with
  | zero => rfl
  | succ n ih =>
      rw [List.range_succ, List.flatMap_append, List.flatMap_append,
        ih (fun i hi => h i (Nat.lt_succ_of_lt hi))]
      simp [h n (Nat.lt_succ_self n)]

/-- Truncation of a nonnegative rational agrees with the floor. -/
theorem ratTrunc_eq_floor (q : Rat) : ratTrunc q = ⌊q⌋₊ := by
  rcases le_or_lt 0 q.num with h | h
  · obtain ⟨n, hn⟩ := Int.eq_ofNat_of_zero_le h
    rw [← Int.floor_toNat, Rat.floor_def, ratTrunc, hn, ← Int.natCast_div]
    simp only [Int.toNat_natCast]
  · have hq : q ≤ 0 :=
      le_of_not_le (fun hle => absurd (Rat.num_nonneg.mpr hle) (not_le.mpr h))
    rw [Nat.floor_of_nonpos hq, ratTrunc, Int.toNat_of_nonpos h.le, Nat.zero_div]

/-- `num`/`den` of a quotient of coprime naturals. -/
theorem rat_num_den_of_coprime {a b : Nat} (hb : 0 < b) (hco : Nat.Coprime a b) :
    ((a : Rat) / (b : Rat)).num = (a : Int) ∧ ((a : Rat) / (b : Rat)).den = b := by
  have hb' : (0 : Int) < (b : Int) := by exact_mod_cast hb
  have hco' : Nat.Coprime ((a : Int)).natAbs ((b : Int)).natAbs := by simpa using hco
  have hcast : ((a : Rat) / (b : Rat)) = (((a : Int) : Rat) / ((b : Int) : Rat)) := by
    push_cast; ring
  refine ⟨?_, ?_⟩
  · rw [hcast, Rat.num_div_eq_of_coprime hb' hco']
  · have hd := Rat.den_div_eq_of_coprime hb' hco'
    rw [hcast]
    exact_mod_cast hd

/-- Evaluate `ratTrunc` on a quotient of coprime naturals. -/
theorem ratTrunc_eval (a b : Nat) (hb : 0 < b) (hco : Nat.Coprime a b) :
    ratTrunc ((a : Rat) / (b : Rat)) = a / b := by
  obtain ⟨hnum, hden⟩ := rat_num_den_of_coprime hb hco
  rw [ratTrunc, hnum, hden, Int.toNat_natCast]

/-- The truncated target width/height at scale 1 is the source one. -/
theorem ratTrunc_one_mul_natCast (n : Nat) : ratTrunc ((1 : Rat) * n) = n := by
  rw [one_mul, ratTrunc_eq_floor, Nat.floor_natCast]

/-- The truncated target width/height at scale 1/2 is the halved source one. -/
theorem ratTrunc_half_mul_natCast (n : Nat) : ratTrunc ((1 / 2 : Rat) * n) = n / 2 := by
  rw [ratTrunc_eq_floor, show ((1 : Rat) / 2 * n) = (n : Rat) / ((2 : Nat) : Rat) by
    push_cast; ring]
  rw [Nat.floor_div_nat, Nat.floor_natCast]

/-- Truncation is the identity on naturals. -/
theorem ratTrunc_natCast (n : Nat) : ratTrunc ((n : Nat) : Rat) = n := by
  rw [ratTrunc_eq_floor, Nat.floor_natCast]

/-- `ratTrunc_half_mul_natCast` in the `2⁻¹` spelling. -/
theorem ratTrunc_inv_two_mul_natCast (n : Nat) : ratTrunc ((2 : Rat)⁻¹ * n) = n / 2 := by
  rw [show ((2 : Rat)⁻¹ * n) = (1 / 2 : Rat) * n by ring, ratTrunc_half_mul_natCast]

/-- The scaler context of the C5 failing input: a BGR 4x5 source at global
scale 0.6.  (On these values every float operation the C performs is exact —
`sw = trunc(0.6*4) = 2`, `sh = trunc(0.6*5) = 3` also with the double nearest
0.6 — so the rational 3/5 reproduces the code bit for bit.) -/
def scale_c5_ctx : scale_ctx_s :=
  (scale_ctx_msg (3 / 5 : Rat) {} ⟨{ bgr := true }, 4, 5⟩).1

/-- The shrink chosen by the do-while search for the C5 context. -/
def scale_c5_r : Nat :=
  scale_find_shrink scale_c5_ctx.w scale_c5_ctx.h scale_c5_ctx.sw scale_c5_ctx.sh
    (scale_c5_ctx.w + 1) 0

/-- The resulting sampling ratio `d` for the C5 context. -/
def scale_c5_dval : Rat := scale_d scale_c5_ctx.w scale_c5_ctx.sw scale_c5_r

/-- The C5 context evaluated: BGR 4x5 at scale 3/5 gives `sw = 2`, `sh = 3`,
`bpp = 3`, `row = 12` and the bilinear mode. -/
theorem scale_c5_ctx_eval :
    scale_c5_ctx =
      { flags := { bgr := true }, w := 4, h := 5, sw := 2, sh := 3, bpp := 3,
        row := 12, scale := 3 / 5, process := true } := by
  have e4 : ratTrunc ((12 : Rat) / 5) = 2 := by
    have h := ratTrunc_eval 12 5 (by decide) (by decide)
    push_cast at h
    simpa using h
  have e3 : ratTrunc (3 : Rat) = 3 := by
    rw [ratTrunc_eq_floor]
    norm_num
  simp only [scale_c5_ctx, scale_ctx_msg, scale_ctx_common]
  norm_num [e4, e3]

/-- The shrink search accepts `r = 0` for the C5 geometry (with equality in
the height condition: `2*(3-1)+1 = 5 = h`). -/
theorem scale_c5_shrink_ok_zero : scale_shrink_ok 4 5 2 3 0 := by
  unfold scale_shrink_ok
  norm_num

/-- The C5 shrink is 0. -/
theorem scale_c5_r_eval : scale_c5_r = 0 := by
  rw [scale_c5_r, scale_c5_ctx_eval]
  show scale_find_shrink 4 5 2 3 (4 + 1) 0 = 0
  rw [scale_find_shrink, if_pos scale_c5_shrink_ok_zero]

/-- The C5 sampling ratio is exactly 2. -/
theorem scale_c5_dval_eval : scale_c5_dval = 2 := by
  rw [scale_c5_dval, scale_c5_r_eval, scale_c5_ctx_eval]
  show ((4 - 0 : Nat) : Rat) / ((2 : Nat) : Rat) = 2
  norm_num

/-- C5: For scales outside {0.5, 1.0} the shrink `r` is the smallest natural
with `d*(sw-1)+1 ≤ w` and `d*(sh-1)+1 ≤ h`, and consequently every bilinear
fetch `pos[sp+tap] + c` is claimed to lie strictly inside the `row*h`-byte
input frame.  The consequence is FALSE on the code: for a BGR 4x5 stream at
scale 0.6 (`sw = 2`, `sh = 3`, `row = 12`) the minimal shrink is `r = 0` with
`d = 2` satisfying both conditions (with equality in `d*(sh-1)+1 = 5 = h`),
and tap 2 of target pixel `(0, 2)` is stored at byte offset
`(trunc(2*2)+1)*row = 60`, exactly `row*h` — one row past the end of the
60-byte input buffer (the fetch happens even though its weight is 0). -/
theorem scale_c5_bilinear_fetch_out_of_bounds :
    scale_gen_maps scale_c5_ctx ∧
    scale_c5_ctx.sw = 2 ∧ scale_c5_ctx.sh = 3 ∧
    scale_c5_ctx.bpp = 3 ∧ scale_c5_ctx.row = 12 ∧ scale_c5_ctx.h = 5 ∧
    scale_c5_r = 0 ∧ scale_shrink_ok 4 5 2 3 0 ∧
    scale_c5_dval = 2 ∧
    scale_pos scale_c5_dval scale_c5_ctx.bpp scale_c5_ctx.row 0 2 2 = 60 ∧
    ¬(scale_pos scale_c5_dval scale_c5_ctx.bpp scale_c5_ctx.row 0 2 2 + 0 <
        scale_c5_ctx.row * scale_c5_ctx.h) := by
  have hctx := scale_c5_ctx_eval
  have hd := scale_c5_dval_eval
  have htr0 : ratTrunc (scale_accum 2 0) = 0 := by
    have hacc : scale_accum (2 : Rat) 0 = 0 := rfl
    rw [hacc, ratTrunc_eq_floor]
    norm_num
  have htr2 : ratTrunc (scale_accum 2 2) = 4 := by
    have hacc : scale_accum (2 : Rat) 2 = 0 + 2 + 2 := rfl
    have h4 : ((0 : Rat) + 2 + 2) = 4 := by norm_num
    rw [hacc, h4, ratTrunc_eq_floor]
    norm_num
  have hpos : scale_pos scale_c5_dval scale_c5_ctx.bpp scale_c5_ctx.row 0 2 2 = 60 := by
    rw [hctx, hd]
    show scale_pos 2 3 12 0 2 2 = 60
    simp [scale_pos, htr0, htr2]
  refine ⟨?_, by rw [hctx], by rw [hctx], by rw [hctx], by rw [hctx], by rw [hctx],
    scale_c5_r_eval, scale_c5_shrink_ok_zero, hd, hpos, by rw [hpos, hctx]; norm_num⟩
  rw [hctx]
  unfold scale_gen_maps
  norm_num

/-- The context produced by a format message with the BGRA flag at scale 1:
target geometry equals source, `bpp = 4`, row stride padded when
DWORD_ALIGNED. -/
theorem scale_ctx_msg_one_bgra (mflags : glc_ctx_flags) (w h : Nat)
    (hbgra : mflags.bgra = true) :
    (scale_ctx_msg 1 {} ⟨mflags, w, h⟩).1 =
      { flags := mflags, w := w, h := h, sw := w, sh := h, bpp := 4,
        row := if mflags.dword_aligned then
            (if (w * 4) % 8 ≠ 0 then w * 4 + (8 - (w * 4) % 8) else w * 4)
          else w * 4,
        scale := 1, process := true } := by
  obtain ⟨fb, fa, fd⟩ := mflags
  simp only [] at hbgra
  subst hbgra
  cases fd <;>
    simp [scale_ctx_msg, scale_ctx_common, ratTrunc_one_mul_natCast, ratTrunc_natCast]

/-- The context produced by a format message with the BGR flag (BGRA clear)
at scale 1/2: target geometry halved, `bpp = 3`. -/
theorem scale_ctx_msg_half_bgr (mflags : glc_ctx_flags) (w h : Nat)
    (hbgra : mflags.bgra = false) (hbgr : mflags.bgr = true) :
    (scale_ctx_msg (1 / 2) {} ⟨mflags, w, h⟩).1 =
      { flags := mflags, w := w, h := h, sw := w / 2, sh := h / 2, bpp := 3,
        row := if mflags.dword_aligned then
            (if (w * 3) % 8 ≠ 0 then w * 3 + (8 - (w * 3) % 8) else w * 3)
          else w * 3,
        scale := 1 / 2, process := true } := by
  obtain ⟨fb, fa, fd⟩ := mflags
  simp only [] at hbgra hbgr
  subst hbgra
  subst hbgr
  have hhalf : ¬((1 : Rat) / 2 = 1) := by norm_num
  cases fd <;>
    simp [scale_ctx_msg, scale_ctx_common, ratTrunc_half_mul_natCast,
      ratTrunc_inv_two_mul_natCast, hhalf]

/-- Dispatch: a context with scale 1 and the BGRA flag takes the channel-drop
branch of `scale_pic_msg`. -/
theorem scale_pic_msg_copy_branch (ctx : scale_ctx_s) (pos : Nat → Nat)
    (factor : Nat → Rat) (src : Nat → Nat) (h1 : ctx.scale = 1)
    (h2 : ctx.flags.bgra = true) :
    scale_pic_msg ctx pos factor src = scale_pic_copy ctx src := by
  simp [scale_pic_msg, h1, h2]

/-- Dispatch: a context with scale 1/2 and the BGRA flag clear takes the
box-filter branch of `scale_pic_msg`. -/
theorem scale_pic_msg_half_branch (ctx : scale_ctx_s) (pos : Nat → Nat)
    (factor : Nat → Rat) (src : Nat → Nat) (h1 : ctx.scale = 1 / 2)
    (h2 : ctx.flags.bgra = false) :
    scale_pic_msg ctx pos factor src = scale_pic_half ctx src := by
  simp [scale_pic_msg, h1, h2]

/-- With byte-valued input the channel-drop branch is exactly the per-pixel
projection of the first three input channels. -/
theorem scale_pic_copy_eq_projection (ctx : scale_ctx_s) (src : Nat → Nat)
    (hsrc : ∀ i, src i < 256) :
    scale_pic_copy ctx src =
      (List.range ctx.sh).flatMap (fun yi =>
        (List.range ctx.sw).flatMap (fun xi =>
          [src (xi * ctx.bpp + yi * ctx.row), src (xi * ctx.bpp + yi * ctx.row + 1),
           src (xi * ctx.bpp + yi * ctx.row + 2)])) := by
  unfold scale_pic_copy
  refine range_flatMap_congr (fun yi _ => ?_)
  refine range_flatMap_congr (fun xi _ => ?_)
  simp [scale_copy_byte, Nat.mod_eq_of_lt (hsrc _)]

/-- With byte-valued input the box-filter branch is exactly the `>> 2`
average of the 2x2 source block, with no truncation by the byte store. -/
theorem scale_pic_half_eq_box_average (ctx : scale_ctx_s) (src : Nat → Nat)
    (hsrc : ∀ i, src i < 256) :
    scale_pic_half ctx src =
      (List.range ctx.sh).flatMap (fun yi =>
        (List.range ctx.sw).flatMap (fun xi =>
          (List.range 3).map (fun c =>
            (src (2 * ctx.bpp * xi + 2 * yi * ctx.row + c) +
             src (2 * ctx.bpp * xi + ctx.bpp + 2 * yi * ctx.row + c) +
             src (2 * ctx.bpp * xi + (2 * yi + 1) * ctx.row + c) +
             src (2 * ctx.bpp * xi + ctx.bpp + (2 * yi + 1) * ctx.row + c)) >>> 2))) := by
  unfold scale_pic_half
  refine range_flatMap_congr (fun yi _ => ?_)
  refine range_flatMap_congr (fun xi _ => ?_)
  have hb : ∀ a b c d : Nat, a < 256 → b < 256 → c < 256 → d < 256 →
      ((a + b + c + d) >>> 2) % 256 = (a + b + c + d) >>> 2 := by
    intro a b c d ha hb hc hd
    have hlt : (a + b + c + d) >>> 2 < 256 := by
      rw [Nat.shiftRight_eq_div_pow]
      exact Nat.div_lt_of_lt_mul (by omega)
    exact Nat.mod_eq_of_lt hlt
  simp only [scale_half_byte, List.range_succ, List.range_zero, List.map_append,
    List.map_cons, List.map_nil, List.nil_append, List.cons_append]
  simp [hb _ _ _ _ (hsrc _) (hsrc _) (hsrc _) (hsrc _)]

/-- The 2x1 BGRA frame of the C7 literal example. -/
def scale_c7_src : Nat → Nat := fun i => [10, 20, 30, 255, 40, 50, 60, 128].getD i 0

/-- The C7 example frame is byte-valued. -/
theorem scale_c7_src_lt (i : Nat) : scale_c7_src i < 256 := by
  unfold scale_c7_src
  rcases i with _ | _ | _ | _ | _ | _ | _ | _ | i <;> simp [List.getD]

/-- The 2x2 BGR frame of the C8 literal example: pixels (0,0,0), (10,10,10),
(20,20,20), (30,30,30) in row-major order. -/
def scale_c8_src : Nat → Nat := fun i =>
  [0, 0, 0, 10, 10, 10, 20, 20, 20, 30, 30, 30].getD i 0

/-- The C8 example frame is byte-valued. -/
theorem scale_c8_src_lt (i : Nat) : scale_c8_src i < 256 := by
  unfold scale_c8_src
  rcases i with _ | _ | _ | _ | _ | _ | _ | _ | _ | _ | _ | _ | i <;> simp [List.getD]

/-- C7: for a stream at scale 1.0 with BGRA input, the scaler's output is
exactly the per-pixel projection of the first three channels of the input
(alpha dropped, row padding removed); in particular the 2x1 frame
`[10,20,30,255, 40,50,60,128]` maps to `[10,20,30, 40,50,60]`. -/
theorem scale_c7_scale1_bgra_drops_alpha
    (mflags : glc_ctx_flags) (w h : Nat) (pos : Nat → Nat) (factor : Nat → Rat)
    (src : Nat → Nat) (hbgra : mflags.bgra = true) (hsrc : ∀ i, src i < 256) :
    (scale_pic_msg ((scale_ctx_msg 1 {} ⟨mflags, w, h⟩).1) pos factor src =
      (List.range h).flatMap (fun yi =>
        (List.range w).flatMap (fun xi =>
          [src (xi * 4 + yi * ((scale_ctx_msg 1 {} ⟨mflags, w, h⟩).1).row),
           src (xi * 4 + yi * ((scale_ctx_msg 1 {} ⟨mflags, w, h⟩).1).row + 1),
           src (xi * 4 + yi * ((scale_ctx_msg 1 {} ⟨mflags, w, h⟩).1).row + 2)]))) ∧
    scale_pic_msg ((scale_ctx_msg 1 {} ⟨{ bgra := true }, 2, 1⟩).1) pos factor
      scale_c7_src = [10, 20, 30, 40, 50, 60] := by
  constructor
  · rw [scale_ctx_msg_one_bgra mflags w h hbgra]
    rw [scale_pic_msg_copy_branch _ _ _ _ rfl hbgra]
    rw [scale_pic_copy_eq_projection _ _ hsrc]
  · rw [scale_ctx_msg_one_bgra { bgra := true } 2 1 rfl]
    rw [scale_pic_msg_copy_branch _ _ _ _ rfl rfl]
    rfl

/-- C8: for a stream at scale 0.5, each output channel byte is the exact
integer average `(a+b+c+d) >> 2` of the corresponding channel of the 2x2
source block, computed without overflowing the native `int`; the 2x2 BGR
input with pixels (0,0,0), (10,10,10), (20,20,20), (30,30,30) gives the
single output pixel (15,15,15). -/
theorem scale_c8_half_scale_box_average
    (mflags : glc_ctx_flags) (w h : Nat) (pos : Nat → Nat) (factor : Nat → Rat)
    (src : Nat → Nat) (hbgra : mflags.bgra = false) (hbgr : mflags.bgr = true)
    (hsrc : ∀ i, src i < 256) :
    (scale_pic_msg ((scale_ctx_msg (1 / 2) {} ⟨mflags, w, h⟩).1) pos factor src =
      (List.range (h / 2)).flatMap (fun yi =>
        (List.range (w / 2)).flatMap (fun xi =>
          (List.range 3).map (fun c =>
            (src (2 * 3 * xi + 2 * yi * ((scale_ctx_msg (1 / 2) {} ⟨mflags, w, h⟩).1).row + c) +
             src (2 * 3 * xi + 3 + 2 * yi * ((scale_ctx_msg (1 / 2) {} ⟨mflags, w, h⟩).1).row + c) +
             src (2 * 3 * xi + (2 * yi + 1) * ((scale_ctx_msg (1 / 2) {} ⟨mflags, w, h⟩).1).row + c) +
             src (2 * 3 * xi + 3 + (2 * yi + 1) * ((scale_ctx_msg (1 / 2) {} ⟨mflags, w, h⟩).1).row + c))
              >>> 2)))) ∧
    (∀ i j k l : Nat, src i + src j + src k + src l < 2 ^ 31) ∧
    scale_pic_msg ((scale_ctx_msg (1 / 2) {} ⟨{ bgr := true }, 2, 2⟩).1) pos factor
      scale_c8_src = [15, 15, 15] := by
  refine ⟨?_, ?_, ?_⟩
  · rw [scale_ctx_msg_half_bgr mflags w h hbgra hbgr]
    rw [scale_pic_msg_half_branch _ _ _ _ rfl hbgra]
    rw [scale_pic_half_eq_box_average _ _ hsrc]
  · intro i j k l
    have h1 := hsrc i
    have h2 := hsrc j
    have h3 := hsrc k
    have h4 := hsrc l
    omega
  · rw [scale_ctx_msg_half_bgr { bgr := true } 2 2 rfl rfl]
    rw [scale_pic_msg_half_branch _ _ _ _ rfl rfl]
    rfl

/-! ## GL capture (`src/glc/capture/gl_capture.c`)

The component is modelled as a pure transition system.  External effects of
one `frame()` call — the X geometry and gamma queries, GL PBO availability
and packet-buffer backpressure — are resolved by a `frame_env` record; writes
into the downstream packet buffer are assumed to succeed except for the
try-open backpressure the environment signals.  `u64` times wrap mod `2^64`
as in the C. -/

/-- `EALREADY` errno. -/
def EALREADY : Nat := 114

/-- `EAGAIN` errno. -/
def EAGAIN : Nat := 11

/-- `EINVAL` errno. -/
def EINVAL : Nat := 22

/-- `ENOTSUP` errno. -/
def ENOTSUP : Nat := 95

/-- `GL_FRONT` enumerant. -/
def GL_FRONT : Nat := 0x0404

/-- `GL_BACK` enumerant. -/
def GL_BACK : Nat := 0x0405

/-- `GL_BGR` enumerant. -/
def GL_BGR : Nat := 0x80E0

/-- `GL_BGRA` enumerant. -/
def GL_BGRA : Nat := 0x80E1

/-- 64-bit wraparound addition on `glc_utime_t` values. -/
def u64add (a b : Nat) : Nat := (a + b) % 2 ^ 64

/-- The component flag word, one `Bool` per `GL_CAPTURE_*` bit
(gl_capture.c:59-65). -/
structure gl_capture_flags where
  try_pbo : Bool := false
  use_pbo : Bool := false
  capturing : Bool := false
  draw_indicator : Bool := false
  crop : Bool := false
  lock_fps : Bool := false
  ignore_time : Bool := false
deriving DecidableEq, Repr

/-- `struct gl_capture_video_stream_s` (gl_capture.c:120): GL handles and
perf counters are dropped, `dpy`/`drawable` are opaque keys, times are ns. -/
structure gl_capture_video_stream_s where
  id : Nat := 0
  flags : glc_video_flags := {}
  dpy : Nat := 0
  drawable : Nat := 0
  attribWin : Nat := 0
  last : Nat := 0
  pbo_time : Nat := 0
  w : Nat := 0
  h : Nat := 0
  cw : Nat := 0
  ch : Nat := 0
  row : Nat := 0
  cx : Nat := 0
  cy : Nat := 0
  gamma_red : Rat := 0
  gamma_green : Rat := 0
  gamma_blue : Rat := 0
  format : Nat := 0
  pbo_active : Bool := false
  num_frames : Nat := 0
  num_captured_frames : Nat := 0
deriving DecidableEq, Repr

/-- `struct gl_capture_s` (gl_capture.c:153); the field defaults are the
state after `gl_capture_init` (gl_capture.c:231): 30 fps, dword alignment,
BGRA, front buffer, no streams.  `to_bound` stands for the `to` buffer
pointer being non-NULL; `next_stream_id` models the dense stream-id counter
of `glc_state_video_new` (glc common state, outside src/). -/
structure gl_capture_s where
  flags : gl_capture_flags := {}
  capture_buffer : Nat := GL_FRONT
  fps_period : Nat := 1000000000 / 30
  fps_rem : Nat := 1
  fps_rem_period : Nat := 3
  video : List gl_capture_video_stream_s := []
  to_bound : Bool := false
  bpp : Nat := 4
  format : Nat := GL_BGRA
  pack_alignment : Nat := 8
  crop_x : Nat := 0
  crop_y : Nat := 0
  crop_w : Nat := 0
  crop_h : Nat := 0
  next_stream_id : Nat := 1
deriving DecidableEq, Repr

/-- The state `gl_capture_init` produces. -/
def gl_capture_initial : gl_capture_s := {}

/-- `gl_capture_set_buffer` (gl_capture.c:249): fails with `EALREADY` when a
buffer is already bound. -/
def gl_capture_set_buffer (g : gl_capture_s) : Nat × gl_capture_s :=
  if g.to_bound then (EALREADY, g) else (0, { g with to_bound := true })

/-- `gl_capture_set_read_buffer` (gl_capture.c:258): only `GL_FRONT` and
`GL_BACK` are accepted. -/
def gl_capture_set_read_buffer (g : gl_capture_s) (buffer : Nat) : Nat × gl_capture_s :=
  if buffer = GL_FRONT ∨ buffer = GL_BACK then (0, { g with capture_buffer := buffer })
  else (ENOTSUP, g)

/-- `gl_capture_set_fps` (gl_capture.c:276).  The double-to-rational
conversion `glcs_d2q`/`glcs_div_q` (common/rational.c, outside src/) is
modelled from the spec with exact rational arithmetic: the period is
`1e9/fps` split into integer ns, remainder and remainder period. -/
def gl_capture_set_fps (g : gl_capture_s) (fps : Rat) : Nat × gl_capture_s :=
  if fps ≤ 0 then (EINVAL, g)
  else
    let c : Rat := 1000000000 / fps
    (0, { g with
      fps_period := c.num.toNat / c.den
      fps_rem := c.num.toNat % c.den
      fps_rem_period := c.den })

/-- `gl_capture_set_pack_alignment` (gl_capture.c:296): only 1 and 8. -/
def gl_capture_set_pack_alignment (g : gl_capture_s) (pa : Nat) : Nat × gl_capture_s :=
  if pa = 1 ∨ pa = 8 then (0, { g with pack_alignment := pa })
  else (ENOTSUP, g)

/-- `gl_capture_set_pixel_format` (gl_capture.c:333): only BGRA and BGR. -/
def gl_capture_set_pixel_format (g : gl_capture_s) (fmt : Nat) : Nat × gl_capture_s :=
  if fmt = GL_BGRA then (0, { g with
    bpp := 4
    format := fmt })
  else if fmt = GL_BGR then (0, { g with
    bpp := 3
    format := fmt })
  else (ENOTSUP, g)

/-- `gl_capture_try_pbo` (gl_capture.c:314): revocation fails with `EAGAIN`
while the PBO is in use. -/
def gl_capture_try_pbo (g : gl_capture_s) (try_pbo : Bool) : Nat × gl_capture_s :=
  if try_pbo then (0, { g with flags := { g.flags with try_pbo := true } })
  else if g.flags.use_pbo then (EAGAIN, g)
  else (0, { g with flags := { g.flags with try_pbo := false } })

/-- `gl_capture_draw_indicator` (gl_capture.c:353). -/
def gl_capture_draw_indicator (g : gl_capture_s) (b : Bool) : gl_capture_s :=
  { g with flags := { g.flags with draw_indicator := b } }

/-- `gl_capture_ignore_time` (gl_capture.c:367). -/
def gl_capture_ignore_time (g : gl_capture_s) (b : Bool) : gl_capture_s :=
  { g with flags := { g.flags with ignore_time := b } }

/-- `gl_capture_lock_fps` (gl_capture.c:393). -/
def gl_capture_lock_fps (g : gl_capture_s) (b : Bool) : gl_capture_s :=
  { g with flags := { g.flags with lock_fps := b } }

/-- `gl_capture_crop` (gl_capture.c:376): all zeros disables cropping. -/
def gl_capture_crop (g : gl_capture_s) (x y width height : Nat) : gl_capture_s :=
  if x = 0 ∧ y = 0 ∧ width = 0 ∧ height = 0 then
    { g with flags := { g.flags with crop := false } }
  else
    { g with
      crop_x := x
      crop_y := y
      crop_w := width
      crop_h := height
      flags := { g.flags with crop := true } }

/-- `gl_capture_start` (gl_capture.c:403): fails with `EAGAIN` without a
bound buffer, else raises the component CAPTURING flag. -/
def gl_capture_start (g : gl_capture_s) : Nat × gl_capture_s :=
  if ¬g.to_bound then (EAGAIN, g)
  else (0, { g with flags := { g.flags with capturing := true } })

/-- `gl_capture_clear_video_streams` (gl_capture.c:767): for each stream,
poll (with ~1 ms sleeps) until its CAPTURING bit clears, then zero `last`.
In this sequential model no frame is mid-flight when `stop` runs — the
invariant `gl_streams_idle` below shows every per-stream bit is already
clear — so the wait is immediate and only the `last` reset remains. -/
def gl_capture_clear_video_streams (g : gl_capture_s) : gl_capture_s :=
  { g with video := g.video.map (fun v => { v with last := 0 }) }

/-- `gl_capture_stop` (gl_capture.c:422): drop the component CAPTURING flag
under the spin lock, then drain the per-stream bits and reset the clocks;
a no-op when already stopped. -/
def gl_capture_stop (g : gl_capture_s) : Nat × gl_capture_s :=
  if g.flags.capturing then
    (0, gl_capture_clear_video_streams
      { g with flags := { g.flags with capturing := false } })
  else (0, g)

/-- External inputs of one `frame()` call. -/
structure frame_env where
  win_w : Nat := 0
  win_h : Nat := 0
  gamma_red : Rat := 1
  gamma_green : Rat := 1
  gamma_blue : Rat := 1
  pbo_ok : Bool := false
  packet_busy : Bool := false
deriving DecidableEq, Repr

/-- `gl_capture_get_video_stream` (gl_capture.c:726): find the record keyed
by `(dpy, drawable)` or prepend a fresh one (`NEED_COLOR_UPDATE` set, a new
dense id), then atomically OR in the per-stream CAPTURING bit.  Returns the
new state, the record's index and the record itself. -/
def gl_capture_get_video_stream (g : gl_capture_s) (dpy drawable : Nat) :
    gl_capture_s × Nat × gl_capture_video_stream_s :=
  match g.video.findIdx? (fun v => v.drawable == drawable && v.dpy == dpy) with
  | some j =>
      let v := { g.video.getD j {} with
        flags := { (g.video.getD j {}).flags with capturing := true } }
      ({ g with video :=
          listModify (fun x => { x with
            flags := { x.flags with capturing := true } }) j g.video }, j, v)
  | none =>
      let v : gl_capture_video_stream_s :=
        { id := g.next_stream_id
          flags := { need_color_update := true, capturing := true }
          dpy := dpy
          drawable := drawable }
      ({ g with
          video := v :: g.video
          next_stream_id := g.next_stream_id + 1 }, 0, v)

/-- `gl_capture_release_video_stream` (gl_capture.c:762): atomically clear
the per-stream CAPTURING bit. -/
def gl_capture_release_video_stream (v : gl_capture_video_stream_s) :
    gl_capture_video_stream_s :=
  { v with flags := { v.flags with capturing := false } }

/-- `gl_capture_calc_geometry` (gl_capture.c:505): record the window size,
clamp the crop rectangle, flip the y origin for GL, and compute the padded
row stride. -/
def gl_capture_calc_geometry (g : gl_capture_s) (v : gl_capture_video_stream_s)
    (w h : Nat) : gl_capture_video_stream_s :=
  let v := { v with
    w := w
    h := h }
  let v :=
    if g.flags.crop then
      let cx := if g.crop_x > v.w then 0 else g.crop_x
      let cy := if g.crop_y > v.h then 0 else g.crop_y
      let cw := if g.crop_w + cx > v.w then v.w - cx else g.crop_w
      let ch := if g.crop_h + cy > v.h then v.h - cy else g.crop_h
      { v with
        cx := cx
        cw := cw
        ch := ch
        cy := v.h - ch - cy }
    else
      { v with
        cw := v.w
        ch := v.h
        cx := 0
        cy := 0 }
  { v with row := gl_capture_row v.cw g.bpp g.pack_alignment }

/-- `gl_capture_init_video_format` (gl_capture.c:782): reset gamma, pick the
stream format from the component pixel format, and mark dword alignment when
the pack alignment is 8. -/
def gl_capture_init_video_format (g : gl_capture_s)
    (v : gl_capture_video_stream_s) : gl_capture_video_stream_s :=
  let v := { v with
    gamma_red := 1
    gamma_green := 1
    gamma_blue := 1
    format := if g.format = GL_BGRA then GLC_VIDEO_BGRA else GLC_VIDEO_BGR }
  if g.pack_alignment = 8 then
    { v with flags := { v.flags with dword_aligned := true } }
  else v

/-- `gl_capture_write_video_format_message` (gl_capture.c:802): recompute
geometry and emit a VIDEO_FORMAT message carrying the crop geometry and the
stream flags minus CAPTURING and NEED_COLOR_UPDATE.  (The PBO
destroy/recreate on format change touches only GL resources and is not
modelled.) -/
def gl_capture_write_video_format_message (g : gl_capture_s)
    (v : gl_capture_video_stream_s) (w h : Nat) :
    gl_capture_video_stream_s × glc_message_t :=
  let v := gl_capture_calc_geometry g v w h
  (v, .video_format
    { id := v.id
      flags := { v.flags with
        capturing := false
        need_color_update := false }
      format := v.format
      width := v.cw
      height := v.ch })

/-- `gl_capture_update_color` (gl_capture.c:1051): clear the
NEED_COLOR_UPDATE bit, query the gamma (from the environment here) and emit a
COLOR message only when it differs from the cached triplet. -/
def gl_capture_update_color (env : frame_env) (v : gl_capture_video_stream_s) :
    gl_capture_video_stream_s × List glc_message_t :=
  let v := { v with flags := { v.flags with need_color_update := false } }
  if env.gamma_red = v.gamma_red ∧ env.gamma_green = v.gamma_green ∧
      env.gamma_blue = v.gamma_blue then (v, [])
  else
    ({ v with
        gamma_red := env.gamma_red
        gamma_green := env.gamma_green
        gamma_blue := env.gamma_blue },
     [.color { id := v.id, brightness := 0, contrast := 0, red := env.gamma_red,
               green := env.gamma_green, blue := env.gamma_blue }])

/-- `gl_capture_update_video_stream` (gl_capture.c:845): lazily resolve the
PBO function pointers (success given by the environment), query the window
geometry, initialize the stream format on first use, emit a VIDEO_FORMAT
message when the geometry changed and a COLOR message when requested. -/
def gl_capture_update_video_stream (g : gl_capture_s) (env : frame_env)
    (v : gl_capture_video_stream_s) :
    gl_capture_s × gl_capture_video_stream_s × List glc_message_t :=
  let g1 :=
    if ¬g.flags.use_pbo ∧ g.flags.try_pbo then
      if env.pbo_ok then { g with flags := { g.flags with use_pbo := true } }
      else { g with flags := { g.flags with try_pbo := false } }
    else g
  let v1 := if v.format = 0 then gl_capture_init_video_format g1 v else v
  let fr :=
    if env.win_w ≠ v1.w ∨ env.win_h ≠ v1.h then
      let wr := gl_capture_write_video_format_message g1 v1 env.win_w env.win_h
      (wr.1, [wr.2])
    else (v1, ([] : List glc_message_t))
  let cr :=
    if fr.1.flags.need_color_update then gl_capture_update_color env fr.1
    else (fr.1, [])
  (g1, cr.1, fr.2 ++ cr.2)

/-- The capture clock read by `frame()` (gl_capture.c:917-921): the state
time, or `last + fps_period` under IGNORE_TIME. -/
def gl_frame_now (g : gl_capture_s) (v : gl_capture_video_stream_s)
    (now_raw : Nat) : Nat :=
  if g.flags.ignore_time then u64add v.last g.fps_period else now_raw % 2 ^ 64

/-- The body of `gl_capture_frame` between stream acquisition and the
`finish` label (gl_capture.c:917-1012): schedule check, stream update, PBO
start, backpressure drop, packet write and clock advance.  Returns the
updated component, the stream record to write back (whose CAPTURING bit the
caller releases, as `finish` does), the emitted messages and the return
code. -/
def gl_capture_frame_core (g : gl_capture_s) (env : frame_env)
    (v : gl_capture_video_stream_s) (now_raw : Nat) :
    gl_capture_s × gl_capture_video_stream_s × List glc_message_t × Nat :=
  let now := gl_frame_now g v now_raw
  if u64sub now v.last < g.fps_period ∧ ¬g.flags.lock_fps ∧
      ¬g.flags.ignore_time then
    (g, v, [], 0)
  else
    let r := gl_capture_update_video_stream g env v
    let g := r.1
    let v := { r.2.1 with num_frames := r.2.1.num_frames + 1 }
    let msgs := r.2.2
    if g.flags.use_pbo ∧ ¬v.pbo_active then
      (g, { v with
        pbo_active := true
        pbo_time := now }, msgs, 0)
    else if ¬(g.flags.lock_fps ∨ g.flags.ignore_time) ∧ env.packet_busy then
      (g, v, msgs, 0)
    else
      let pic_time := if g.flags.use_pbo ∧ v.pbo_time < now then v.pbo_time
        else now
      let v := if g.flags.use_pbo then { v with pbo_time := now } else v
      let v := { v with num_captured_frames := v.num_captured_frames + 1 }
      let v := { v with last := u64add v.last g.fps_period }
      let v := if v.num_captured_frames % g.fps_rem_period = 0 then
          { v with last := u64add v.last g.fps_rem }
        else v
      (g, v, msgs ++ [.video_frame { id := v.id, time := pic_time }], 0)

/-- `gl_capture_frame` (gl_capture.c:897): the hot path.  Returns the new
state, the messages written downstream in order, and the return code (0 on
every modelled path — schedule and backpressure drops are not errors). -/
def gl_capture_frame (g : gl_capture_s) (env : frame_env)
    (dpy drawable now_raw : Nat) : gl_capture_s × List glc_message_t × Nat :=
  if ¬g.flags.capturing then (g, [], 0)
  else
    let a := gl_capture_get_video_stream g dpy drawable
    let r := gl_capture_frame_core a.1 env a.2.2 now_raw
    ({ r.1 with
        video := listModify (fun _ => gl_capture_release_video_stream r.2.1) a.2.1 r.1.video },
     r.2.2.1, r.2.2.2)

/-- The `last` clock of the stream keyed by `(dpy, drawable)`; 0 when the
stream does not exist yet (a fresh record is calloc-zeroed). -/
def gl_capture_stream_last (g : gl_capture_s) (dpy drawable : Nat) : Nat :=
  match g.video.findIdx? (fun v => v.drawable == drawable && v.dpy == dpy) with
  | some j => (g.video.getD j {}).last
  | none => 0

/-- Did this batch of downstream messages publish a VIDEO_FRAME? -/
def gl_frame_publishes (msgs : List glc_message_t) : Bool :=
  msgs.any (fun m => match m with
    | .video_frame _ => true
    | _ => false)

/-- One public operation of the component. -/
inductive gl_op where
  | op_start
  | op_stop
  | op_frame (env : frame_env) (dpy drawable now : Nat)
  | op_set_buffer
  | op_set_read_buffer (buffer : Nat)
  | op_set_fps (fps : Rat)
  | op_set_pack_alignment (pa : Nat)
  | op_set_pixel_format (fmt : Nat)
  | op_try_pbo (b : Bool)
  | op_lock_fps (b : Bool)
  | op_ignore_time (b : Bool)
  | op_draw_indicator (b : Bool)
  | op_crop (x y width height : Nat)

/-- Apply one operation; second component is the messages it wrote. -/
def gl_capture_step (g : gl_capture_s) : gl_op → gl_capture_s × List glc_message_t
  | .op_start => ((gl_capture_start g).2, [])
  | .op_stop => ((gl_capture_stop g).2, [])
  | .op_frame env dpy drawable now =>
      let r := gl_capture_frame g env dpy drawable now
      (r.1, r.2.1)
  | .op_set_buffer => ((gl_capture_set_buffer g).2, [])
  | .op_set_read_buffer buffer => ((gl_capture_set_read_buffer g buffer).2, [])
  | .op_set_fps fps => ((gl_capture_set_fps g fps).2, [])
  | .op_set_pack_alignment pa => ((gl_capture_set_pack_alignment g pa).2, [])
  | .op_set_pixel_format fmt => ((gl_capture_set_pixel_format g fmt).2, [])
  | .op_try_pbo b => ((gl_capture_try_pbo g b).2, [])
  | .op_lock_fps b => (gl_capture_lock_fps g b, [])
  | .op_ignore_time b => (gl_capture_ignore_time g b, [])
  | .op_draw_indicator b => (gl_capture_draw_indicator g b, [])
  | .op_crop x y width height => (gl_capture_crop g x y width height, [])

/-- Run a sequence of operations, accumulating the written messages. -/
def gl_capture_run : gl_capture_s → List gl_op → gl_capture_s × List glc_message_t
  | g, [] => (g, [])
  | g, o :: ops =>
      let r := gl_capture_step g o
      let r2 := gl_capture_run r.1 ops
      (r2.1, r.2 ++ r2.2)

/-- Between operations every per-stream CAPTURING bit is clear (each
completed `frame()` releases the bit it set). -/
def gl_streams_idle (g : gl_capture_s) : Prop :=
  ∀ v ∈ g.video, v.flags.capturing = false

/-- While the component is stopped every stream clock is 0 (`stop` zeroed
them and only an active `frame()` can advance them). -/
def gl_stopped_reset (g : gl_capture_s) : Prop :=
  g.flags.capturing = false → ∀ v ∈ g.video, v.last = 0

/-- Both run-time invariants of the component. -/
def gl_inv (g : gl_capture_s) : Prop := gl_streams_idle g ∧ gl_stopped_reset g

theorem listModify_listModify (f k : α → α) (j : Nat) (l : List α) :
    listModify k j (listModify f j l) = listModify (fun x => k (f x)) j l := by
  induction l generalizing j with
  | nil => cases j <;> rfl
  | cons a l ih =>
      cases j with
      | zero => rfl
      | succ n => simp only [listModify, ih]

theorem mem_listModify {f : α → α} {j : Nat} {l : List α} {x : α}
    (hx : x ∈ listModify f j l) : x ∈ l ∨ ∃ y ∈ l, x = f y := by
  induction l generalizing j with
  | nil => simp only [listModify] at hx; cases hx
  | cons a l ih =>
      cases j with
      | zero =>
          simp only [listModify] at hx
          rcases List.mem_cons.mp hx with h | h
          · exact Or.inr ⟨a, List.mem_cons_self a l, h⟩
          · exact Or.inl (List.mem_cons_of_mem a h)
      | succ n =>
          simp only [listModify] at hx
          rcases List.mem_cons.mp hx with h | h
          · exact Or.inl (h ▸ List.mem_cons_self a l)
          · rcases ih h with h' | ⟨y, hy, hxy⟩
            · exact Or.inl (List.mem_cons_of_mem a h')
            · exact Or.inr ⟨y, List.mem_cons_of_mem a hy, hxy⟩

/-- `gl_capture_update_video_stream` only touches the PBO bits of the
component: the stream list is unchanged. -/
theorem gl_update_fst_video (g : gl_capture_s) (env : frame_env)
    (v : gl_capture_video_stream_s) :
    (gl_capture_update_video_stream g env v).1.video = g.video := by
  dsimp only [gl_capture_update_video_stream]
  split
  · split <;> rfl
  · rfl

/-- `gl_capture_update_video_stream` leaves the component CAPTURING, LOCK_FPS
and IGNORE_TIME flags and the fps fields alone. -/
theorem gl_update_fst_flags (g : gl_capture_s) (env : frame_env)
    (v : gl_capture_video_stream_s) :
    (gl_capture_update_video_stream g env v).1.flags.capturing = g.flags.capturing ∧
    (gl_capture_update_video_stream g env v).1.flags.lock_fps = g.flags.lock_fps ∧
    (gl_capture_update_video_stream g env v).1.flags.ignore_time = g.flags.ignore_time := by
  dsimp only [gl_capture_update_video_stream]
  split
  · split <;> exact ⟨rfl, rfl, rfl⟩
  · exact ⟨rfl, rfl, rfl⟩

/-- Without `TRY_PBO` (and thus without `USE_PBO`) the stream update does not
modify the component at all. -/
theorem gl_update_fst_of_no_pbo (g : gl_capture_s) (env : frame_env)
    (v : gl_capture_video_stream_s) (htry : g.flags.try_pbo = false) :
    (gl_capture_update_video_stream g env v).1 = g := by
  dsimp only [gl_capture_update_video_stream]
  rw [if_neg]
  simp [htry]

/-- The frame core does not change the stream list. -/
theorem gl_core_fst_video (g : gl_capture_s) (env : frame_env)
    (v : gl_capture_video_stream_s) (now : Nat) :
    (gl_capture_frame_core g env v now).1.video = g.video := by
  dsimp only [gl_capture_frame_core]
  split
  · rfl
  · split
    · exact gl_update_fst_video g env v
    · split
      · exact gl_update_fst_video g env v
      · exact gl_update_fst_video g env v

/-- The frame core does not change the component CAPTURING flag. -/
theorem gl_core_fst_capturing (g : gl_capture_s) (env : frame_env)
    (v : gl_capture_video_stream_s) (now : Nat) :
    (gl_capture_frame_core g env v now).1.flags.capturing = g.flags.capturing := by
  dsimp only [gl_capture_frame_core]
  split
  · rfl
  · split
    · exact (gl_update_fst_flags g env v).1
    · split
      · exact (gl_update_fst_flags g env v).1
      · exact (gl_update_fst_flags g env v).1

/-- Stream acquisition does not change the component flag word. -/
theorem gl_get_fst_flags (g : gl_capture_s) (dpy drawable : Nat) :
    (gl_capture_get_video_stream g dpy drawable).1.flags = g.flags := by
  unfold gl_capture_get_video_stream
  split <;> rfl

/-- `frame()` does not change the component CAPTURING flag. -/
theorem gl_frame_fst_capturing (g : gl_capture_s) (env : frame_env)
    (dpy drawable now : Nat) :
    (gl_capture_frame g env dpy drawable now).1.flags.capturing =
      g.flags.capturing := by
  unfold gl_capture_frame
  split
  · rfl
  · show (gl_capture_frame_core _ env _ now).1.flags.capturing = _
    rw [gl_core_fst_capturing, gl_get_fst_flags]

/-- A released stream record has its CAPTURING bit clear. -/
theorem gl_release_capturing (v : gl_capture_video_stream_s) :
    (gl_capture_release_video_stream v).flags.capturing = false := rfl

/-- Every complete `frame()` call leaves all per-stream CAPTURING bits clear:
the bit it ORs in on entry is released at `finish` on every path. -/
theorem gl_frame_preserves_idle (g : gl_capture_s) (env : frame_env)
    (dpy drawable now : Nat) (hidle : gl_streams_idle g) :
    gl_streams_idle (gl_capture_frame g env dpy drawable now).1 := by
  unfold gl_capture_frame
  split
  · exact hidle
  · intro x hx
    simp only [] at hx
    rw [gl_core_fst_video] at hx
    revert hx
    unfold gl_capture_get_video_stream
    cases hfind : g.video.findIdx? (fun v => v.drawable == drawable && v.dpy == dpy) with
    | none =>
        intro hx
        simp only [listModify] at hx
        rcases List.mem_cons.mp hx with h | h
        · rw [h]; exact gl_release_capturing _
        · exact hidle x h
    | some j =>
        intro hx
        rw [listModify_listModify] at hx
        rcases mem_listModify hx with h | ⟨y, _, hxy⟩
        · exact hidle x h
        · rw [hxy]; exact gl_release_capturing _

/-- `frame()` preserves both invariants. -/
theorem gl_frame_preserves_inv (g : gl_capture_s) (env : frame_env)
    (dpy drawable now : Nat) (h : gl_inv g) :
    gl_inv (gl_capture_frame g env dpy drawable now).1 := by
  refine ⟨gl_frame_preserves_idle g env dpy drawable now h.1, ?_⟩
  cases hcap : g.flags.capturing with
  | false =>
      have : gl_capture_frame g env dpy drawable now = (g, [], 0) := by
        unfold gl_capture_frame
        rw [if_pos]
        simp [hcap]
      rw [this]
      exact h.2
  | true =>
      intro habs
      rw [gl_frame_fst_capturing, hcap] at habs
      cases habs

/-- Post-state of `gl_capture_stop`: the component flag is down, every
per-stream CAPTURING bit is clear and every stream clock is 0. -/
theorem gl_stop_post (g : gl_capture_s) (hidle : gl_streams_idle g)
    (hreset : gl_stopped_reset g) :
    (gl_capture_stop g).2.flags.capturing = false ∧
    ∀ v ∈ (gl_capture_stop g).2.video, v.flags.capturing = false ∧ v.last = 0 := by
  unfold gl_capture_stop gl_capture_clear_video_streams
  split
  · refine ⟨rfl, ?_⟩
    intro x hx
    simp only [List.mem_map] at hx
    obtain ⟨y, hy, rfl⟩ := hx
    exact ⟨hidle y hy, rfl⟩
  · next hfalse =>
      have hc : g.flags.capturing = false := by
        revert hfalse; cases g.flags.capturing <;> simp
      exact ⟨hc, fun v hv => ⟨hidle v hv, hreset hc v hv⟩⟩

/-- Every public operation preserves the invariants. -/
theorem gl_step_preserves_inv (g : gl_capture_s) (o : gl_op) (h : gl_inv g) :
    gl_inv (gl_capture_step g o).1 := by
  obtain ⟨hidle, hreset⟩ := h
  cases o with
  | op_frame env dpy drawable now =>
      exact gl_frame_preserves_inv g env dpy drawable now ⟨hidle, hreset⟩
  | op_stop =>
      obtain ⟨h1, h2⟩ := gl_stop_post g hidle hreset
      exact ⟨fun v hv => (h2 v hv).1, fun _ v hv => (h2 v hv).2⟩
  | op_start =>
      dsimp only [gl_capture_step, gl_capture_start]
      split
      · exact ⟨hidle, hreset⟩
      · refine ⟨hidle, ?_⟩
        intro habs
        cases habs
  | op_set_buffer =>
      dsimp only [gl_capture_step, gl_capture_set_buffer]
      split
      · exact ⟨hidle, hreset⟩
      · exact ⟨hidle, hreset⟩
  | op_set_read_buffer buffer =>
      dsimp only [gl_capture_step, gl_capture_set_read_buffer]
      split
      · exact ⟨hidle, hreset⟩
      · exact ⟨hidle, hreset⟩
  | op_set_fps fps =>
      dsimp only [gl_capture_step, gl_capture_set_fps]
      split
      · exact ⟨hidle, hreset⟩
      · exact ⟨hidle, hreset⟩
  | op_set_pack_alignment pa =>
      dsimp only [gl_capture_step, gl_capture_set_pack_alignment]
      split
      · exact ⟨hidle, hreset⟩
      · exact ⟨hidle, hreset⟩
  | op_set_pixel_format fmt =>
      dsimp only [gl_capture_step, gl_capture_set_pixel_format]
      split
      · exact ⟨hidle, hreset⟩
      · split
        · exact ⟨hidle, hreset⟩
        · exact ⟨hidle, hreset⟩
  | op_try_pbo b =>
      dsimp only [gl_capture_step, gl_capture_try_pbo]
      split
      · exact ⟨hidle, hreset⟩
      · split
        · exact ⟨hidle, hreset⟩
        · exact ⟨hidle, hreset⟩
  | op_lock_fps b => exact ⟨hidle, hreset⟩
  | op_ignore_time b => exact ⟨hidle, hreset⟩
  | op_draw_indicator b => exact ⟨hidle, hreset⟩
  | op_crop x y width height =>
      dsimp only [gl_capture_step, gl_capture_crop]
      split
      · exact ⟨hidle, hreset⟩
      · exact ⟨hidle, hreset⟩

/-- Runs preserve the invariants. -/
theorem gl_run_preserves_inv (g : gl_capture_s) (ops : List gl_op)
    (h : gl_inv g) : gl_inv (gl_capture_run g ops).1 := by
  induction ops generalizing g with
  | nil => exact h
  | cons o ops ih => exact ih _ (gl_step_preserves_inv g o h)

/-- The initial state satisfies the invariants. -/
theorem gl_initial_inv : gl_inv gl_capture_initial :=
  ⟨fun v hv => absurd hv (List.not_mem_nil v), fun _ v hv => absurd hv (List.not_mem_nil v)⟩

theorem gl_capture_run_append (g : gl_capture_s) (a b : List gl_op) :
    gl_capture_run g (a ++ b) =
      ((gl_capture_run (gl_capture_run g a).1 b).1,
       (gl_capture_run g a).2 ++ (gl_capture_run (gl_capture_run g a).1 b).2) := by
  induction a generalizing g with
  | nil => simp [gl_capture_run]
  | cons o a ih =>
      simp only [List.cons_append, gl_capture_run, List.append_eq]
      rw [ih]
      simp [List.append_assoc]

/-- With the component CAPTURING flag down, every operation other than
`start` writes nothing downstream and leaves the flag down. -/
theorem gl_step_silent (g : gl_capture_s) (o : gl_op)
    (hcap : g.flags.capturing = false) (hns : o ≠ gl_op.op_start) :
    (gl_capture_step g o).2 = [] ∧
    (gl_capture_step g o).1.flags.capturing = false := by
  cases o with
  | op_start => exact absurd rfl hns
  | op_frame env dpy drawable now =>
      have hframe : gl_capture_frame g env dpy drawable now = (g, [], 0) := by
        unfold gl_capture_frame
        rw [if_pos]
        simp [hcap]
      dsimp only [gl_capture_step]
      rw [hframe]
      exact ⟨rfl, hcap⟩
  | op_stop =>
      dsimp only [gl_capture_step, gl_capture_stop]
      rw [if_neg (by simp [hcap])]
      exact ⟨rfl, hcap⟩
  | op_set_buffer =>
      dsimp only [gl_capture_step, gl_capture_set_buffer]
      split <;> exact ⟨rfl, hcap⟩
  | op_set_read_buffer buffer =>
      dsimp only [gl_capture_step, gl_capture_set_read_buffer]
      split <;> exact ⟨rfl, hcap⟩
  | op_set_fps fps =>
      dsimp only [gl_capture_step, gl_capture_set_fps]
      split <;> exact ⟨rfl, hcap⟩
  | op_set_pack_alignment pa =>
      dsimp only [gl_capture_step, gl_capture_set_pack_alignment]
      split <;> exact ⟨rfl, hcap⟩
  | op_set_pixel_format fmt =>
      dsimp only [gl_capture_step, gl_capture_set_pixel_format]
      split
      · exact ⟨rfl, hcap⟩
      · split <;> exact ⟨rfl, hcap⟩
  | op_try_pbo b =>
      dsimp only [gl_capture_step, gl_capture_try_pbo]
      split
      · exact ⟨rfl, hcap⟩
      · split <;> exact ⟨rfl, hcap⟩
  | op_lock_fps b => exact ⟨rfl, hcap⟩
  | op_ignore_time b => exact ⟨rfl, hcap⟩
  | op_draw_indicator b => exact ⟨rfl, hcap⟩
  | op_crop x y width height =>
      dsimp only [gl_capture_step, gl_capture_crop]
      split <;> exact ⟨rfl, hcap⟩

/-- A stopped component stays silent over any start-free operation
sequence. -/
theorem gl_run_silent (g : gl_capture_s) (ops : List gl_op)
    (hcap : g.flags.capturing = false) (hns : gl_op.op_start ∉ ops) :
    (gl_capture_run g ops).2 = [] ∧
    (gl_capture_run g ops).1.flags.capturing = false := by
  induction ops generalizing g with
  | nil => exact ⟨rfl, hcap⟩
  | cons o ops ih =>
      have hno : o ≠ gl_op.op_start := fun h => hns (h ▸ List.mem_cons_self o ops)
      obtain ⟨h1, h2⟩ := gl_step_silent g o hcap hno
      obtain ⟨h3, h4⟩ := ih (gl_capture_step g o).1 h2
        (fun h => hns (List.mem_cons_of_mem o h))
      dsimp only [gl_capture_run]
      rw [h1, h3]
      exact ⟨rfl, h4⟩

/-- C4: after `stop()` returns, the component CAPTURING flag is down, every
per-stream CAPTURING bit is clear, every stream's `last` publish clock is 0,
and no subsequent operation sequence that does not contain `start` makes a
`frame()` call publish anything.  (The ~1 ms drain polling of
`gl_capture_clear_video_streams` is immediate in this sequential model: the
invariant `gl_streams_idle` shows all per-stream bits are already clear when
`stop` runs, so `stop` never returns with a bit still set.) -/
theorem gl_c4_stop_drains_and_resets (ops : List gl_op) :
    (gl_capture_run gl_capture_initial (ops ++ [gl_op.op_stop])).1.flags.capturing = false ∧
    (∀ v ∈ (gl_capture_run gl_capture_initial (ops ++ [gl_op.op_stop])).1.video,
        v.flags.capturing = false ∧ v.last = 0) ∧
    (∀ more : List gl_op, gl_op.op_start ∉ more →
      (gl_capture_run
        (gl_capture_run gl_capture_initial (ops ++ [gl_op.op_stop])).1 more).2 = []) := by
  have hinv := gl_run_preserves_inv gl_capture_initial ops gl_initial_inv
  have hstop : (gl_capture_run gl_capture_initial (ops ++ [gl_op.op_stop])).1 =
      (gl_capture_stop (gl_capture_run gl_capture_initial ops).1).2 := by
    rw [gl_capture_run_append]
    rfl
  obtain ⟨h1, h2⟩ := gl_stop_post (gl_capture_run gl_capture_initial ops).1 hinv.1 hinv.2
  refine ⟨by rw [hstop]; exact h1, by rw [hstop]; exact h2, ?_⟩
  intro more hns
  exact (gl_run_silent _ more (by rw [hstop]; exact h1) hns).1

/-- C10: with the component-wide CAPTURING flag clear, `frame()` returns 0
and is a complete no-op: no stream record is created or modified, nothing is
written downstream, and no per-stream field changes. -/
theorem gl_c10_frame_inert_when_not_capturing (g : gl_capture_s)
    (env : frame_env) (dpy drawable now : Nat)
    (h : g.flags.capturing = false) :
    gl_capture_frame g env dpy drawable now = (g, [], 0) := by
  unfold gl_capture_frame
  rw [if_pos]
  simp [h]

/-- Witness for C10 at the freshly initialized component. -/
theorem gl_c10_witness :
    gl_capture_frame gl_capture_initial {} 3 4 5 = (gl_capture_initial, [], 0) :=
  gl_c10_frame_inert_when_not_capturing gl_capture_initial {} 3 4 5 rfl

/-- C9: whenever a setter returns a nonzero configuration error
(already-bound, invalid-argument, unsupported, busy-revocation), the
component state after the call is identical to the state before it. -/
theorem gl_c9_failed_setters_leave_state_unchanged (g : gl_capture_s)
    (buffer pa fmt : Nat) (fps : Rat) (b : Bool) :
    ((gl_capture_set_buffer g).1 ≠ 0 → (gl_capture_set_buffer g).2 = g) ∧
    ((gl_capture_set_read_buffer g buffer).1 ≠ 0 →
      (gl_capture_set_read_buffer g buffer).2 = g) ∧
    ((gl_capture_set_fps g fps).1 ≠ 0 → (gl_capture_set_fps g fps).2 = g) ∧
    ((gl_capture_set_pack_alignment g pa).1 ≠ 0 →
      (gl_capture_set_pack_alignment g pa).2 = g) ∧
    ((gl_capture_set_pixel_format g fmt).1 ≠ 0 →
      (gl_capture_set_pixel_format g fmt).2 = g) ∧
    ((gl_capture_try_pbo g b).1 ≠ 0 → (gl_capture_try_pbo g b).2 = g) := by
  refine ⟨?_, ?_, ?_, ?_, ?_, ?_⟩
  · unfold gl_capture_set_buffer
    split
    · intro _; rfl
    · intro h; exact absurd rfl h
  · unfold gl_capture_set_read_buffer
    split
    · intro h; exact absurd rfl h
    · intro _; rfl
  · unfold gl_capture_set_fps
    split
    · intro _; rfl
    · intro h; exact absurd rfl h
  · unfold gl_capture_set_pack_alignment
    split
    · intro h; exact absurd rfl h
    · intro _; rfl
  · unfold gl_capture_set_pixel_format
    split
    · intro h; exact absurd rfl h
    · split
      · intro h; exact absurd rfl h
      · intro _; rfl
  · unfold gl_capture_try_pbo
    split
    · intro h; exact absurd rfl h
    · split
      · intro _; rfl
      · intro h; exact absurd rfl h

/-- A state on which every C9 setter error path fires: buffer already bound,
PBO in use. -/
def gl_c9_state : gl_capture_s := { to_bound := true, flags := { use_pbo := true } }

/-- Witness for C9: each setter, fed an input it rejects, hands back the
state unchanged. -/
theorem gl_c9_witness :
    (gl_capture_set_buffer gl_c9_state).2 = gl_c9_state ∧
    (gl_capture_set_read_buffer gl_c9_state 0).2 = gl_c9_state ∧
    (gl_capture_set_fps gl_c9_state (-1)).2 = gl_c9_state ∧
    (gl_capture_set_pack_alignment gl_c9_state 2).2 = gl_c9_state ∧
    (gl_capture_set_pixel_format gl_c9_state 0).2 = gl_c9_state ∧
    (gl_capture_try_pbo gl_c9_state false).2 = gl_c9_state := by
  have h := gl_c9_failed_setters_leave_state_unchanged gl_c9_state 0 2 0 (-1) false
  exact ⟨h.1 (by decide), h.2.1 (by decide), h.2.2.1 (by decide),
    h.2.2.2.1 (by decide), h.2.2.2.2.1 (by decide), h.2.2.2.2.2 (by decide)⟩

/-- Stream acquisition does not change the fps fields. -/
theorem gl_get_fst_fps (g : gl_capture_s) (dpy drawable : Nat) :
    (gl_capture_get_video_stream g dpy drawable).1.fps_period = g.fps_period := by
  unfold gl_capture_get_video_stream
  split <;> rfl

/-- The record handed out by stream acquisition carries the `last` clock of
the stream keyed by `(dpy, drawable)` (0 for a fresh record). -/
theorem gl_get_snd_last (g : gl_capture_s) (dpy drawable : Nat) :
    (gl_capture_get_video_stream g dpy drawable).2.2.last =
      gl_capture_stream_last g dpy drawable := by
  unfold gl_capture_get_video_stream gl_capture_stream_last
  rcases hfind : g.video.findIdx? (fun v => v.drawable == drawable && v.dpy == dpy)
    with _ | j <;> simp [hfind]

/-- Under CAPTURING, `frame()`'s downstream messages are those of the core on
the acquired stream. -/
theorem gl_frame_msgs_stream (g : gl_capture_s) (env : frame_env)
    (dpy drawable now : Nat) (hcap : g.flags.capturing = true) :
    (gl_capture_frame g env dpy drawable now).2.1 =
      (gl_capture_frame_core (gl_capture_get_video_stream g dpy drawable).1 env
        (gl_capture_get_video_stream g dpy drawable).2.2 now).2.2.1 := by
  unfold gl_capture_frame
  rw [if_neg (by simp [hcap])]

/-- Scheduling in the core, without PBO and without backpressure: the call
publishes no VIDEO_FRAME exactly when `now - last < fps_period` (in wrapping
`u64` arithmetic) and neither LOCK_FPS nor IGNORE_TIME is set. -/
theorem gl_core_publishes (g : gl_capture_s) (env : frame_env)
    (v : gl_capture_video_stream_s) (now : Nat)
    (hlock : g.flags.lock_fps = false) (hign : g.flags.ignore_time = false)
    (htry : g.flags.try_pbo = false) (huse : g.flags.use_pbo = false)
    (hbusy : env.packet_busy = false) :
    gl_frame_publishes (gl_capture_frame_core g env v now).2.2.1 = false ↔
      u64sub (now % 2 ^ 64) v.last < g.fps_period := by
  have hnow : gl_frame_now g v now = now % 2 ^ 64 := by
    unfold gl_frame_now
    simp [hign]
  have hupd := gl_update_fst_of_no_pbo g env v htry
  dsimp only [gl_capture_frame_core]
  rw [hnow]
  split
  case isTrue h => exact iff_of_true rfl h.1
  case isFalse h =>
      rw [hupd]
      rw [if_neg (by simp [huse]), if_neg (by simp [hbusy])]
      refine iff_of_false (by simp [gl_frame_publishes]) ?_
      intro hcond
      exact h ⟨hcond, by simp [hlock], by simp [hign]⟩

/-- The component after `set_fps(30)`, `set_buffer`, `start`: the scenario
base of C3. -/
def gl_c3_base : gl_capture_s :=
  (gl_capture_start
    (gl_capture_set_buffer (gl_capture_set_fps gl_capture_initial 30).2).2).2

/-- The frame environment of the C3 scenario: a fixed 4x4 window, default
gamma, no PBO, no backpressure. -/
def gl_c3_env : frame_env := { win_w := 4, win_h := 4 }

/-- The publish flags of four `frame()` calls fired at `t0`, `t0+10ms`,
`t0+40ms`, `t0+70ms` on one stream of a freshly started capture. -/
def gl_c3_emits (t0 : Nat) : List Bool :=
  let r1 := gl_capture_frame gl_c3_base gl_c3_env 7 9 t0
  let r2 := gl_capture_frame r1.1 gl_c3_env 7 9 (t0 + 10000000)
  let r3 := gl_capture_frame r2.1 gl_c3_env 7 9 (t0 + 40000000)
  let r4 := gl_capture_frame r3.1 gl_c3_env 7 9 (t0 + 70000000)
  [gl_frame_publishes r1.2.1, gl_frame_publishes r2.2.1,
   gl_frame_publishes r3.2.1, gl_frame_publishes r4.2.1]

/-- `set_fps(30)` yields the period 33333333 ns with a +1 ns remainder every
3 frames; the C3 base state evaluated. -/
theorem gl_c3_base_eval :
    gl_c3_base =
      { flags := { capturing := true }, to_bound := true,
        fps_period := 33333333, fps_rem := 1, fps_rem_period := 3 } := by
  have hc : ((1000000000 : Rat) / 30) = ((100000000 : Nat) : Rat) / ((3 : Nat) : Rat) := by
    push_cast
    norm_num
  have hnd := rat_num_den_of_coprime (a := 100000000) (b := 3) (by decide) (by decide)
  have hfps : (gl_capture_set_fps gl_capture_initial 30).2 =
      { gl_capture_initial with
        fps_period := 33333333
        fps_rem := 1
        fps_rem_period := 3 } := by
    unfold gl_capture_set_fps
    rw [if_neg (by norm_num : ¬(30 : Rat) ≤ 0)]
    dsimp only
    rw [hc, hnd.1, hnd.2]
    norm_num
    exact ⟨by decide, by decide⟩
  unfold gl_c3_base
  rw [hfps]
  rfl

/-- C3 (amended): a `frame()` call publishes no frame exactly when
`now - last < fps_period` (wrapping `u64` arithmetic) and neither LOCK_FPS
nor IGNORE_TIME is set — given no PBO and no buffer backpressure; and the
literal scenario at fps 30 emits exactly the first, third and fourth frames
provided the first call fires at `t0 = fps_period` (more generally
`fps_period ≤ t0 < 56666666` ns of the capture clock; `last` starts at 0 and
advances by `fps_period` per published frame instead of snapping to `now`,
so a larger `t0` makes the second call publish too). -/
theorem gl_c3_frame_pacing (g : gl_capture_s) (env : frame_env)
    (dpy drawable now : Nat) (hcap : g.flags.capturing = true)
    (hlock : g.flags.lock_fps = false) (hign : g.flags.ignore_time = false)
    (htry : g.flags.try_pbo = false) (huse : g.flags.use_pbo = false)
    (hbusy : env.packet_busy = false) :
    (gl_frame_publishes (gl_capture_frame g env dpy drawable now).2.1 = false ↔
      u64sub (now % 2 ^ 64) (gl_capture_stream_last g dpy drawable) <
        g.fps_period) ∧
    gl_c3_emits 33333333 = [true, false, true, true] := by
  constructor
  · rw [gl_frame_msgs_stream g env dpy drawable now hcap]
    have h1 := gl_get_fst_flags g dpy drawable
    have hcore := gl_core_publishes (gl_capture_get_video_stream g dpy drawable).1
      env (gl_capture_get_video_stream g dpy drawable).2.2 now
      (by rw [h1]; exact hlock) (by rw [h1]; exact hign)
      (by rw [h1]; exact htry) (by rw [h1]; exact huse) hbusy
    rw [hcore, gl_get_snd_last, gl_get_fst_fps]
  · unfold gl_c3_emits
    rw [gl_c3_base_eval]
    rfl

/-- C3 counterexample: the claim asserts the 10/40/70 ms scenario pattern for
a freshly started capture at an arbitrary `t0`; at `t0 = 100000000` ns the
code publishes all four frames (the second call is NOT dropped, because
`last` was advanced from 0 to 33333333 rather than to `t0`), contradicting
"exactly the first, third and fourth". -/
theorem gl_c3_counterexample :
    gl_c3_emits 100000000 = [true, true, true, true] ∧
    gl_c3_emits 100000000 ≠ [true, false, true, true] := by
  have h : gl_c3_emits 100000000 = [true, true, true, true] := by
    unfold gl_c3_emits
    rw [gl_c3_base_eval]
    rfl
  exact ⟨h, by rw [h]; decide⟩

/-- Witness for C3 at the scenario base state. -/
theorem gl_c3_witness :
    ((gl_frame_publishes (gl_capture_frame gl_c3_base gl_c3_env 7 9 50000000).2.1 = false ↔
      u64sub (50000000 % 2 ^ 64) (gl_capture_stream_last gl_c3_base 7 9) <
        gl_c3_base.fps_period) ∧
     gl_c3_emits 33333333 = [true, false, true, true]) :=
  gl_c3_frame_pacing gl_c3_base gl_c3_env 7 9 50000000 (by rw [gl_c3_base_eval])
    (by rw [gl_c3_base_eval]) (by rw [gl_c3_base_eval]) (by rw [gl_c3_base_eval])
    (by rw [gl_c3_base_eval]) rfl

/-- Operation sequence of the C4 witness: bind a buffer, start, capture one
frame at 50 ms. -/
def gl_c4_ops : List gl_op :=
  [gl_op.op_set_buffer, gl_op.op_start,
   gl_op.op_frame { win_w := 4, win_h := 4 } 7 9 50000000]

/-- Start-free continuation of the C4 witness: one more `frame()` call. -/
def gl_c4_more : List gl_op :=
  [gl_op.op_frame { win_w := 4, win_h := 4 } 7 9 90000000]

/-- The single stream record left by the C4 witness run after `stop`. -/
def gl_c4_stream : gl_capture_video_stream_s :=
  { id := 1, flags := { dword_aligned := true }, dpy := 7, drawable := 9,
    attribWin := 0, last := 0, pbo_time := 0, w := 4, h := 4, cw := 4, ch := 4,
    row := 16, cx := 0, cy := 0, gamma_red := 1, gamma_green := 1,
    gamma_blue := 1, format := 2, pbo_active := false, num_frames := 1,
    num_captured_frames := 1 }

/-- Witness for C4: a run that binds, starts, captures a frame and stops
ends with the flag down and its stream released and reset, and a further
start-free `frame()` call publishes nothing. -/
theorem gl_c4_witness :
    (gl_capture_run gl_capture_initial (gl_c4_ops ++ [gl_op.op_stop])).1.flags.capturing = false ∧
    (gl_c4_stream.flags.capturing = false ∧ gl_c4_stream.last = 0) ∧
    (gl_capture_run (gl_capture_run gl_capture_initial (gl_c4_ops ++ [gl_op.op_stop])).1
        gl_c4_more).2 = [] := by
  have h := gl_c4_stop_drains_and_resets gl_c4_ops
  have hmem : gl_c4_stream ∈
      (gl_capture_run gl_capture_initial (gl_c4_ops ++ [gl_op.op_stop])).1.video := by
    rw [show (gl_capture_run gl_capture_initial (gl_c4_ops ++ [gl_op.op_stop])).1.video =
        [gl_c4_stream] from rfl]
    exact List.mem_singleton_self _
  have hns : gl_op.op_start ∉ gl_c4_more := by
    intro hmem2
    simp [gl_c4_more] at hmem2
  exact ⟨h.1, h.2.1 gl_c4_stream hmem, h.2.2 gl_c4_more hns⟩

/-- Witness for C7 at the literal 2x1 BGRA frame. -/
theorem scale_c7_witness :
    scale_pic_msg ((scale_ctx_msg 1 {} ⟨{ bgra := true }, 2, 1⟩).1) (fun _ => 0)
      (fun _ => 0) scale_c7_src = [10, 20, 30, 40, 50, 60] :=
  (scale_c7_scale1_bgra_drops_alpha { bgra := true } 2 1 (fun _ => 0) (fun _ => 0)
    scale_c7_src rfl scale_c7_src_lt).2

/-- Witness for C8 at the literal 2x2 BGR frame. -/
theorem scale_c8_witness :
    scale_pic_msg ((scale_ctx_msg (1 / 2) {} ⟨{ bgr := true }, 2, 2⟩).1) (fun _ => 0)
      (fun _ => 0) scale_c8_src = [15, 15, 15] :=
  (scale_c8_half_scale_box_average { bgr := true } 2 2 (fun _ => 0) (fun _ => 0)
    scale_c8_src rfl rfl scale_c8_src_lt).2.2

end Glcs
